import Mathlib

/-!
Shallow embedding of the session lifecycle manager implemented in `venv/main.py`
of the repository: the `user_sessions` table, the consent gate
`can_set_session_cookies`, session creation `create_session`, validation with
renewal `validate_session`, and the expiry sweep `cleanup_expired_sessions`.

The persisted table is modelled as a `List Session`; each SQL statement of the
source becomes an explicit function on that list.  Timestamps are integers
(seconds); the `datetime` comparisons that the source performs in Python after
`datetime.fromisoformat` become integer comparisons and `timedelta` values
become second counts.  The sweep's SQL predicate
`expires_at < datetime('now')`, however, is a raw TEXT comparison inside
SQLite between the stored local `isoformat()` text and the UTC
`datetime('now')` text, and is modelled as exactly that, through an explicit
rendering of both texts.  Store-level exceptions, which the source catches
with `except Exception`, are injected through explicit failure parameters;
`conn.rollback()` restores the last committed state, per sqlite transaction
semantics.
-/

/-- Embedding of Python's `s.split(sep)` for a one-character separator, on the
character list of the string: splits at every occurrence of `sep` and always
returns at least one (possibly empty) group, exactly like Python's `split`. -/
def charSplit (sep : Char) : List Char → List (List Char)
  | [] => [[]]
  | a :: as =>
    match charSplit sep as with
    | [] => [[]]
    | grp :: rest => if a = sep then [] :: grp :: rest else (a :: grp) :: rest

/-- Python `s.split(sep)` for a one-character separator, as a `String` operation. -/
def pySplit (s : String) (sep : Char) : List String :=
  (charSplit sep s.data).map String.mk

/-- Embedding of Python's `s.startswith(pat)`: `leadsWith l p` is true iff `p` is
an initial segment of `l`. -/
def leadsWith : List Char → List Char → Bool
  | _, [] => true
  | [], _ :: _ => false
  | a :: as, b :: bs => a == b && leadsWith as bs

/-- Python `s.startswith(pat)` as a `String` operation. -/
def pyStartsWith (s pat : String) : Bool :=
  leadsWith s.data pat.data

/-- Python slicing `s[n:]` as a `String` operation. -/
def pyDrop (s : String) (n : Nat) : String :=
  String.mk (s.data.drop n)

/-- Python slicing `s[:n]` (used for the 500-character `user_agent` truncation). -/
def pyTake (s : String) (n : Nat) : String :=
  String.mk (s.data.take n)

/-- A row of the `user_sessions` table created by `init_tables` in `venv/main.py`:
columns `session_id` (primary key), `user_id`, `user_login`, `email`,
`access_token` (unique), `created_at`, `last_activity`, `expires_at`,
`ip_address`, `user_agent`, `remember_me`. -/
structure Session where
  session_id : String
  user_id : Int
  user_login : String
  email : String
  access_token : String
  created_at : Int
  last_activity : Int
  expires_at : Int
  ip_address : String
  user_agent : String
  remember_me : Bool
  deriving DecidableEq, Repr

/-- SQL `DELETE FROM user_sessions WHERE user_id = ?` (start of the `create_session`
transaction). -/
def sqlDeleteForUser (store : List Session) (uid : Int) : List Session :=
  store.filter (fun r => !(r.user_id == uid))

/-- SQL `INSERT INTO user_sessions ... VALUES (...)`: appends a fresh row. -/
def sqlInsert (store : List Session) (row : Session) : List Session :=
  store ++ [row]

/-- SQL `SELECT ... FROM user_sessions WHERE session_id = ? AND access_token = ?`
followed by `fetchone()`: the first row matching both fields exactly. -/
def sqlSelectSession (store : List Session) (sid tok : String) : Option Session :=
  store.find? (fun r => r.session_id == sid && r.access_token == tok)

/-- SQL `DELETE FROM user_sessions WHERE session_id = ?`. -/
def sqlDeleteBySid (store : List Session) (sid : String) : List Session :=
  store.filter (fun r => !(r.session_id == sid))

/-- SQL `UPDATE user_sessions SET last_activity = datetime('now') WHERE session_id = ?`. -/
def sqlTouch (store : List Session) (sid : String) (now : Int) : List Session :=
  store.map (fun r => if r.session_id == sid then { r with last_activity := now } else r)

/-- SQL `UPDATE user_sessions SET expires_at = ? WHERE session_id = ?`. -/
def sqlRenew (store : List Session) (sid : String) (t : Int) : List Session :=
  store.map (fun r => if r.session_id == sid then { r with expires_at := t } else r)

/-- Civil date (year, month, day) of a day count since 1970-01-01 (valid for
nonnegative day counts, i.e. instants from 1970 on, which covers every instant
this program handles).  Standard era/day-of-era decomposition of the Gregorian
calendar. -/
def civilFromDaysNat (z : Nat) : Nat × Nat × Nat :=
  let zz := z + 719468
  let era := zz / 146097
  let doe := zz % 146097
  let yoe := (doe - doe / 1460 + doe / 36524 - doe / 146096) / 365
  let y := yoe + era * 400
  let doy := doe - (365 * yoe + yoe / 4 - yoe / 100)
  let mp := (5 * doy + 2) / 153
  let d := doy - (153 * mp + 2) / 5 + 1
  let m := if mp < 10 then mp + 3 else mp - 9
  (if m ≤ 2 then y + 1 else y, m, d)

/-- Day count since 1970-01-01 of a civil date (inverse of `civilFromDaysNat`
on contemporary dates). -/
def daysFromCivil (y m d : Nat) : Nat :=
  let yy := if m ≤ 2 then y - 1 else y
  let era := yy / 400
  let yoe := yy % 400
  let doy := (153 * (if m > 2 then m - 3 else m + 9) + 2) / 5 + d - 1
  let doe := yoe * 365 + yoe / 4 - yoe / 100 + doy
  era * 146097 + doe - 719468

/-- The naive instant `y-m-d h:mi:s` as whole seconds since
1970-01-01 00:00:00. -/
def mkEpoch (y m d h mi s : Nat) : Int :=
  ((daysFromCivil y m d * 86400 + h * 3600 + mi * 60 + s : Nat) : Int)

/-- Zero-padded four-digit decimal rendering (Python `%04d` for years). -/
def natDigits4 (n : Nat) : List Char :=
  [Nat.digitChar (n / 1000 % 10), Nat.digitChar (n / 100 % 10),
   Nat.digitChar (n / 10 % 10), Nat.digitChar (n % 10)]

/-- Zero-padded two-digit decimal rendering (Python `%02d`). -/
def natDigits2 (n : Nat) : List Char :=
  [Nat.digitChar (n / 10 % 10), Nat.digitChar (n % 10)]

/-- The `YYYY-MM-DD` text of a day count since 1970-01-01. -/
def dateTextOfDays (z : Nat) : List Char :=
  let ymd := civilFromDaysNat z
  natDigits4 ymd.1 ++ ['-'] ++ natDigits2 ymd.2.1 ++ ['-'] ++ natDigits2 ymd.2.2

/-- The `HH:MM:SS` text of a second-of-day count. -/
def timeTextOfSod (sod : Nat) : List Char :=
  natDigits2 (sod / 3600) ++ [':'] ++ natDigits2 (sod % 3600 / 60) ++ [':'] ++
    natDigits2 (sod % 60)

/-- Python `datetime.isoformat()` of a whole-second instant, as stored by
`create_session` and `validate_session`: `YYYY-MM-DDTHH:MM:SS`, with the `'T'`
separator (the fractional part is omitted when the microsecond field is zero;
the model uses whole-second instants, and the byte at the separator position
decides the comparisons below before any fractional digits could). -/
def pyIsoformat (e : Int) : String :=
  String.mk (dateTextOfDays (e.toNat / 86400) ++ ['T'] ++ timeTextOfSod (e.toNat % 86400))

/-- The text SQLite's `datetime('now')` evaluates to: the current UTC time as
`YYYY-MM-DD HH:MM:SS`, with a space separator and whole seconds. -/
def sqliteNowText (utc_now : Int) : String :=
  String.mk (dateTextOfDays (utc_now.toNat / 86400) ++ [' '] ++
    timeTextOfSod (utc_now.toNat % 86400))

/-- SQLite's BINARY collation on TEXT values: memcmp order, here byte-wise over
the ASCII code points both rendered texts consist of (a strict prefix sorts
first). -/
def textLt : List Char → List Char → Bool
  | [], [] => false
  | [], _ :: _ => true
  | _ :: _, [] => false
  | a :: as, b :: bs => if a = b then textLt as bs else decide (a < b)

/-- SQLite TEXT comparison of two stored strings. -/
def sqliteTextLt (s t : String) : Bool :=
  textLt s.data t.data

/-- SQL `DELETE FROM user_sessions WHERE expires_at < datetime('now')` together
with the `cursor.rowcount` it reports.  The `DATETIME` column has TEXT
affinity, so SQLite compares the stored value — the local-time `isoformat()`
text with its `'T'` separator — against the UTC `datetime('now')` text with its
space separator, byte-wise; no chronological parsing takes place.  `utc_now` is
the UTC instant of the call (equal to the process-local `datetime.now()` clock
exactly when the host timezone is UTC). -/
def sqlDeleteExpired (store : List Session) (utc_now : Int) : List Session × Nat :=
  (store.filter (fun r =>
     !(sqliteTextLt (pyIsoformat r.expires_at) (sqliteNowText utc_now))),
   store.countP (fun r =>
     sqliteTextLt (pyIsoformat r.expires_at) (sqliteNowText utc_now)))

/-- Python `timedelta(minutes = n)` in seconds. -/
def minutes (n : Int) : Int :=
  n * 60

/-- Python `timedelta(days = n)` in seconds. -/
def days (n : Int) : Int :=
  n * 24 * 60 * 60

/-- The consent gate `can_set_session_cookies` (`venv/main.py` lines 86-96), as a function of the
`cookies_accepted` cookie value (the absent cookie defaults to `"false"`).
Python's `cookies_accepted.split(":")[1]` cannot raise here because the
`startswith("selected:")` guard guarantees at least one `':'`; the `getD`
default is therefore never taken. -/
def can_set_session_cookies (cookies_accepted : String) : Bool :=
  if cookies_accepted == "true" then
    true
  else if pyStartsWith cookies_accepted "selected:" then
    let selected_types := pySplit ((pySplit cookies_accepted ':').getD 1 "") ','
    selected_types.contains "session"
  else
    false

/-- The statements of the `create_session` transaction at which the source's
`except Exception` handler (lines 147-150) can be entered. -/
inductive TxnFail where
  | atDelete
  | atInsert
  | atCommit
  deriving DecidableEq, Repr

/-- Result of `create_session`: the store after the call together with the
returned triple `(session_id, access_token, max_age)`. -/
structure CreateOutcome where
  store : List Session
  session_id : Option String
  access_token : Option String
  max_age : Nat
  deriving DecidableEq, Repr

/-- Session creation `create_session` (`venv/main.py` lines 98-154).  `fail` injects a persistence
failure at the given statement of the transaction; on failure the handler runs
`conn.rollback()`, which per sqlite semantics restores the state committed
before the transaction began, and the function returns the sentinel
`(None, None, 0)`.  `fresh_session_id` / `fresh_access_token` stand for the
`secrets.token_urlsafe` values, `now` for `datetime.now()`. -/
def create_session (store : List Session) (user_id : Int) (user_login email : String)
    (cookies_accepted : String) (remember_me : Bool) (client_host user_agent : String)
    (now : Int) (fresh_session_id fresh_access_token : String) (fail : Option TxnFail) :
    CreateOutcome :=
  if can_set_session_cookies cookies_accepted = false then
    { store := store, session_id := none, access_token := none, max_age := 0 }
  else
    let session_duration : Int := if remember_me then days 7 else minutes 60
    let max_age : Nat := if remember_me then 7 * 24 * 60 * 60 else 30 * 60
    let expires_at : Int := now + session_duration
    if fail = some TxnFail.atDelete then
      { store := store, session_id := none, access_token := none, max_age := 0 }
    else
      let staged := sqlDeleteForUser store user_id
      let row : Session :=
        { session_id := fresh_session_id, user_id := user_id, user_login := user_login,
          email := email, access_token := fresh_access_token, created_at := now,
          last_activity := now, expires_at := expires_at, ip_address := client_host,
          user_agent := pyTake user_agent 500, remember_me := remember_me }
      if fail = some TxnFail.atInsert then
        { store := store, session_id := none, access_token := none, max_age := 0 }
      else if fail = some TxnFail.atCommit then
        { store := store, session_id := none, access_token := none, max_age := 0 }
      else
        { store := sqlInsert staged row, session_id := some fresh_session_id,
          access_token := some fresh_access_token, max_age := max_age }

/-- Result of `cleanup_expired_sessions`: the store after the call together with
the returned `deleted_count`. -/
structure CleanupOutcome where
  store : List Session
  deleted_count : Nat
  deriving DecidableEq, Repr

/-- The sweep `cleanup_expired_sessions` (`venv/main.py` lines 156-197): runs
the TEXT-compared DELETE of `sqlDeleteExpired` at the UTC call instant
`utc_now`.  `fail = true` injects a failure of the DELETE statement itself: the
handler rolls the transaction back and the initial `deleted_count = 0` is
returned.  A failure in the statistics queries after `conn.commit()` changes
neither the store nor the already-assigned count, so it needs no separate
case. -/
def cleanup_expired_sessions (store : List Session) (utc_now : Int) (fail : Bool) :
    CleanupOutcome :=
  if fail then
    { store := store, deleted_count := 0 }
  else
    let res := sqlDeleteExpired store utc_now
    { store := res.1, deleted_count := res.2 }

/-- The dictionary returned by `validate_session`: `invalid reason email rm`
models `{"valid": False, "reason": reason}` with the optional `"email"` and
`"remember_me"` entries (absent entries are `none`); `valid` models the
`{"valid": True, ...}` dictionary. -/
inductive ValidateResult where
  | invalid (reason : String) (email : Option String) (remember_me : Option Bool)
  | valid (user_id : Int) (user_login : String) (email : String) (remember_me : Bool)
      (expires_at : Int)
  deriving DecidableEq, Repr

/-- Whether the returned dictionary has `"valid": True`. -/
def ValidateResult.isValid : ValidateResult → Bool
  | .valid _ _ _ _ _ => true
  | .invalid _ _ _ => false

/-- Session validation `validate_session` (`venv/main.py` lines 238-322): empty-token short circuit,
exact two-field lookup, eager delete of an observed-expired row (the source
compares with strict `datetime.now() > expires_at`), activity stamp, and the
conditional 30-minute renewal for non-remember-me sessions.  Returns the store
after the call and the result dictionary. -/
def validate_session (store : List Session) (session_id access_token : String)
    (prolong : Bool) (now : Int) : List Session × ValidateResult :=
  if session_id = "" ∨ access_token = "" then
    (store, .invalid "no_session" none none)
  else
    match sqlSelectSession store session_id access_token with
    | none => (store, .invalid "session_not_found" none none)
    | some row =>
      if now > row.expires_at then
        let store1 := sqlDeleteBySid store session_id
        if row.remember_me then
          (store1, .invalid "session_expired" (some row.email) (some true))
        else
          (store1, .invalid "session_expired" none none)
      else
        let store1 := sqlTouch store session_id now
        let store2 :=
          if prolong = true ∧ row.remember_me = false then
            sqlRenew store1 session_id (now + minutes 30)
          else store1
        (store2, .valid row.user_id row.user_login row.email row.remember_me
          row.expires_at)

/-- The consent predicate exactly as claim C5 words it: true iff the preference
is exactly `"true"`, or starts with `"selected:"` and the comma-separated
category list after that prefix contains `"session"`.  Written from the claim's
words, to be compared with the source's `can_set_session_cookies`. -/
def may_issue_session_cookie_claim (pref : String) : Bool :=
  pref == "true" ||
    (pyStartsWith pref "selected:" && (pySplit (pyDrop pref 9) ',').contains "session")

/-- The text strictly between the first and second `':'` of a string: up to the
end when there is no second `':'`, empty when there is no `':'` at all.  This is
what `split(":")[1]` extracts when at least one `':'` is present. -/
def betweenFirstColons (s : String) : String :=
  String.mk (((s.data.dropWhile (fun a => !(a == ':'))).drop 1).takeWhile
    (fun a => !(a == ':')))

/-- A sample `user_sessions` row used by concrete witnesses. -/
def mkRow (sid tok : String) (uid : Int) (exp : Int) (rem : Bool) : Session :=
  { session_id := sid, user_id := uid, user_login := "login", email := "user@example.com",
    access_token := tok, created_at := 0, last_activity := 0, expires_at := exp,
    ip_address := "127.0.0.1", user_agent := "agent", remember_me := rem }

/-! ### Helper lemmas -/

/-- A row returned by the two-field lookup is a member of the store. -/
theorem sqlSelectSession_mem {store : List Session} {sid tok : String} {r : Session}
    (h : sqlSelectSession store sid tok = some r) : r ∈ store :=
  List.mem_of_find?_eq_some h

/-- A row returned by the two-field lookup matches both fields exactly. -/
theorem sqlSelectSession_fields {store : List Session} {sid tok : String} {r : Session}
    (h : sqlSelectSession store sid tok = some r) :
    r.session_id = sid ∧ r.access_token = tok := by
  have := List.find?_some h
  simpa using this

/-- If some row matches both fields, the lookup succeeds. -/
theorem sqlSelectSession_isSome {store : List Session} {sid tok : String}
    (h : ∃ r ∈ store, r.session_id = sid ∧ r.access_token = tok) :
    (sqlSelectSession store sid tok).isSome = true := by
  rw [sqlSelectSession, List.find?_isSome]
  obtain ⟨r, hr, h1, h2⟩ := h
  exact ⟨r, hr, by simp [h1, h2]⟩

/-- If no row matches both fields, the lookup fails. -/
theorem sqlSelectSession_eq_none {store : List Session} {sid tok : String}
    (h : ∀ r ∈ store, ¬(r.session_id = sid ∧ r.access_token = tok)) :
    sqlSelectSession store sid tok = none := by
  rw [sqlSelectSession, List.find?_eq_none]
  intro r hr
  simpa using h r hr

/-! ### Claim theorems -/

/-- Claim C6: when the consent gate refuses (`can_set_session_cookies` is false),
`create_session` short-circuits before any store access: the store is unchanged
(no row written), no tokens are issued, and the caller receives the
consent-refusal sentinel `(None, None, 0)`. -/
theorem create_session_consent_short_circuit
    (store : List Session) (user_id : Int) (user_login email cookies_accepted : String)
    (remember_me : Bool) (client_host user_agent : String) (now : Int)
    (fresh_session_id fresh_access_token : String) (fail : Option TxnFail)
    (hgate : can_set_session_cookies cookies_accepted = false) :
    create_session store user_id user_login email cookies_accepted remember_me
        client_host user_agent now fresh_session_id fresh_access_token fail =
      { store := store, session_id := none, access_token := none, max_age := 0 } := by
  simp [create_session, hgate]

/-- Witness for C6, at the spec's own example `"selected:functional"`. -/
theorem create_session_consent_short_circuit_witness :
    can_set_session_cookies "selected:functional" = false ∧
    create_session [mkRow "s0" "t0" 7 99 false] 7 "lg" "e@x" "selected:functional" false
        "h" "ua" 100 "sN" "tN" none =
      { store := [mkRow "s0" "t0" 7 99 false], session_id := none, access_token := none,
        max_age := 0 } :=
  ⟨by decide,
   create_session_consent_short_circuit [mkRow "s0" "t0" 7 99 false] 7 "lg" "e@x"
     "selected:functional" false "h" "ua" 100 "sN" "tN" none (by decide)⟩

/-- Claim C9: whenever `create_session` encounters a persistence failure at any
statement of its transaction, the rollback leaves the store exactly as it was
before the call (neither the deletion of the user's old sessions nor the insert
survives) and the caller receives the sentinel failure with no tokens issued. -/
theorem create_session_rollback_on_failure
    (store : List Session) (user_id : Int) (user_login email cookies_accepted : String)
    (remember_me : Bool) (client_host user_agent : String) (now : Int)
    (fresh_session_id fresh_access_token : String) (f : TxnFail) :
    create_session store user_id user_login email cookies_accepted remember_me
        client_host user_agent now fresh_session_id fresh_access_token (some f) =
      { store := store, session_id := none, access_token := none, max_age := 0 } := by
  cases hg : can_set_session_cookies cookies_accepted <;> cases f <;>
    simp [create_session, hg]

/-- Claim C7: a successful `create_session` stores `expires_at = now + 7 days`
for remember-me and `now + 60 minutes` otherwise, while returning
`max_age = 7*24*3600` for remember-me and `30*60 = 1800` otherwise — the
non-remember-me cookie max-age being decoupled from the stored 60-minute
expiry window. -/
theorem create_session_durations
    (store : List Session) (user_id : Int) (user_login email cookies_accepted : String)
    (remember_me : Bool) (client_host user_agent : String) (now : Int)
    (fresh_session_id fresh_access_token : String)
    (hgate : can_set_session_cookies cookies_accepted = true) :
    ((create_session store user_id user_login email cookies_accepted remember_me
        client_host user_agent now fresh_session_id fresh_access_token none).max_age =
      if remember_me then 7 * 24 * 3600 else 30 * 60) ∧
    ∃ r, (create_session store user_id user_login email cookies_accepted remember_me
        client_host user_agent now fresh_session_id fresh_access_token
        none).store.getLast? = some r ∧
      r.user_id = user_id ∧ r.remember_me = remember_me ∧
      r.expires_at = now + (if remember_me then 7 * 24 * 3600 else 60 * 60) := by
  cases remember_me <;>
    simp [create_session, hgate, sqlInsert, List.getLast?_concat, days, minutes]

/-- Witness for C7 with `remember_me = true`. -/
theorem create_session_durations_witness :
    can_set_session_cookies "true" = true ∧
    ((create_session [] 7 "lg" "e@x" "true" true "h" "ua" 100 "sN" "tN" none).max_age =
      if true then 7 * 24 * 3600 else 30 * 60) ∧
    ∃ r, (create_session [] 7 "lg" "e@x" "true" true "h" "ua" 100 "sN" "tN"
        none).store.getLast? = some r ∧
      r.user_id = 7 ∧ r.remember_me = true ∧
      r.expires_at = 100 + (if true then 7 * 24 * 3600 else 60 * 60) :=
  ⟨by decide, create_session_durations [] 7 "lg" "e@x" "true" true "h" "ua" 100 "sN" "tN"
    (by decide)⟩

/-- Claim C1: after every successful `create_session` call, exactly one row with
the given `user_id` exists in the store — the call deletes all prior rows of
that user and inserts the single fresh row, so the surviving row carries the
freshly generated token pair (last login wins).  The statement holds for an
arbitrary prior store, hence after each call of any sequence of calls. -/
theorem create_session_single_row_per_user
    (store : List Session) (user_id : Int) (user_login email cookies_accepted : String)
    (remember_me : Bool) (client_host user_agent : String) (now : Int)
    (fresh_session_id fresh_access_token : String) (fail : Option TxnFail)
    (hsucc : (create_session store user_id user_login email cookies_accepted remember_me
        client_host user_agent now fresh_session_id fresh_access_token
        fail).session_id.isSome = true) :
    ((create_session store user_id user_login email cookies_accepted remember_me
        client_host user_agent now fresh_session_id fresh_access_token fail).store.countP
      (fun r => r.user_id == user_id) = 1) ∧
    ∀ r ∈ (create_session store user_id user_login email cookies_accepted remember_me
        client_host user_agent now fresh_session_id fresh_access_token fail).store,
      r.user_id = user_id →
        r.session_id = fresh_session_id ∧ r.access_token = fresh_access_token := by
  cases hg : can_set_session_cookies cookies_accepted with
  | false => simp [create_session, hg] at hsucc
  | true =>
    cases fail with
    | some f => cases f <;> simp [create_session, hg] at hsucc
    | none =>
      have hstore : (create_session store user_id user_login email cookies_accepted
          remember_me client_host user_agent now fresh_session_id fresh_access_token
          none).store =
          store.filter (fun r => !(r.user_id == user_id)) ++
            [{ session_id := fresh_session_id, user_id := user_id,
               user_login := user_login, email := email,
               access_token := fresh_access_token, created_at := now,
               last_activity := now,
               expires_at := now + (if remember_me then days 7 else minutes 60),
               ip_address := client_host, user_agent := pyTake user_agent 500,
               remember_me := remember_me }] := by
        simp [create_session, hg, sqlDeleteForUser, sqlInsert]
      rw [hstore]
      constructor
      · rw [List.countP_append]
        have h0 : (store.filter (fun r => !(r.user_id == user_id))).countP
            (fun r => r.user_id == user_id) = 0 := by
          rw [List.countP_eq_zero]
          intro a ha
          have := (List.mem_filter.mp ha).2
          simpa using this
        rw [h0]
        simp
      · intro r hr hruid
        simp only [List.mem_append, List.mem_filter] at hr
        rcases hr with ⟨_, hpred⟩ | hr
        · simp [hruid] at hpred
        · simp only [List.mem_singleton] at hr
          subst hr
          exact ⟨rfl, rfl⟩

/-- Witness for C1: a second login for user 7 leaves exactly one row for user 7,
bearing the fresh tokens. -/
theorem create_session_single_row_per_user_witness :
    ((create_session [mkRow "sOld" "tOld" 7 99 false] 7 "lg" "e@x" "true" false "h" "ua"
        100 "sNew" "tNew" none).session_id.isSome = true) ∧
    ((create_session [mkRow "sOld" "tOld" 7 99 false] 7 "lg" "e@x" "true" false "h" "ua"
        100 "sNew" "tNew" none).store.countP (fun r => r.user_id == 7) = 1) ∧
    ∀ r ∈ (create_session [mkRow "sOld" "tOld" 7 99 false] 7 "lg" "e@x" "true" false "h"
        "ua" 100 "sNew" "tNew" none).store,
      r.user_id = 7 → r.session_id = "sNew" ∧ r.access_token = "tNew" :=
  ⟨by decide,
   create_session_single_row_per_user [mkRow "sOld" "tOld" 7 99 false] 7 "lg" "e@x" "true"
     false "h" "ua" 100 "sNew" "tNew" none (by decide)⟩

/-- Claim C8 (code bug): the sweep does not remove every row whose expiry is
earlier than the call time.  The stored `expires_at` is the local-time
`isoformat()` text with a `'T'` separator, while `datetime('now')` is the UTC
`YYYY-MM-DD HH:MM:SS` text with a space separator, and SQLite compares the two
as raw TEXT.  On a shared `YYYY-MM-DD` prefix the eleventh byte decides:
`'T'` (0x54) sorts after `' '` (0x20), so a row that expired earlier on the
same UTC date is never deleted.  With the host timezone UTC (so the two clocks
coincide): a session that expired at 2026-10-12 10:00:00, swept at
2026-10-12 12:00:00, is chronologically two hours past expiry yet survives
with `deleted_count = 0`, while a row from the previous date is deleted —
contradicting the code's own docstring ("immediate deletion of all expired
sessions") and the claim. -/
theorem cleanup_expired_sessions_misses_same_date_row :
    mkEpoch 2026 10 12 10 0 0 < mkEpoch 2026 10 12 12 0 0 ∧
    pyIsoformat (mkEpoch 2026 10 12 10 0 0) = "2026-10-12T10:00:00" ∧
    sqliteNowText (mkEpoch 2026 10 12 12 0 0) = "2026-10-12 12:00:00" ∧
    (cleanup_expired_sessions [mkRow "s1" "t1" 1 (mkEpoch 2026 10 12 10 0 0) false]
        (mkEpoch 2026 10 12 12 0 0) false).store =
      [mkRow "s1" "t1" 1 (mkEpoch 2026 10 12 10 0 0) false] ∧
    (cleanup_expired_sessions [mkRow "s1" "t1" 1 (mkEpoch 2026 10 12 10 0 0) false]
        (mkEpoch 2026 10 12 12 0 0) false).deleted_count = 0 ∧
    (cleanup_expired_sessions [mkRow "s2" "t2" 2 (mkEpoch 2026 10 11 23 0 0) false]
        (mkEpoch 2026 10 12 12 0 0) false).store = [] := by
  decide

/-- Claim C3: the two-field lookup returns a row iff both supplied fields match
that row exactly, and for a (nonempty) credential pair matching no stored row —
in particular a valid `session_id` paired with an `access_token` of a different
session — `validate_session` returns `Invalid("session_not_found")` and leaves
the store untouched. -/
theorem validate_session_token_pair_exactness
    (store : List Session) (sid tok : String) (prolong : Bool) (now : Int)
    (hsid : sid ≠ "") (htok : tok ≠ "")
    (hnomatch : ∀ r ∈ store, ¬(r.session_id = sid ∧ r.access_token = tok)) :
    validate_session store sid tok prolong now =
        (store, ValidateResult.invalid "session_not_found" none none) ∧
    (∀ (store2 : List Session) (sid2 tok2 : String) (r : Session),
        sqlSelectSession store2 sid2 tok2 = some r →
        r ∈ store2 ∧ r.session_id = sid2 ∧ r.access_token = tok2) ∧
    (∀ (store2 : List Session) (sid2 tok2 : String),
        (∃ r ∈ store2, r.session_id = sid2 ∧ r.access_token = tok2) →
        (sqlSelectSession store2 sid2 tok2).isSome = true) := by
  refine ⟨?_, ?_, fun _ _ _ h => sqlSelectSession_isSome h⟩
  · have hfind : sqlSelectSession store sid tok = none := sqlSelectSession_eq_none hnomatch
    simp [validate_session, hsid, htok, hfind]
  · intro store2 sid2 tok2 r hfind
    exact ⟨sqlSelectSession_mem hfind, sqlSelectSession_fields hfind⟩

/-- Witness for C3: a correct `session_id` paired with an `access_token` of a
different session yields `Invalid("session_not_found")`. -/
theorem validate_session_token_pair_exactness_witness :
    (∀ r ∈ [mkRow "s1" "t1" 1 50 false, mkRow "s2" "t2" 2 50 false],
        ¬(r.session_id = "s1" ∧ r.access_token = "t2")) ∧
    validate_session [mkRow "s1" "t1" 1 50 false, mkRow "s2" "t2" 2 50 false]
        "s1" "t2" true 10 =
      ([mkRow "s1" "t1" 1 50 false, mkRow "s2" "t2" 2 50 false],
        ValidateResult.invalid "session_not_found" none none) :=
  ⟨by decide,
   (validate_session_token_pair_exactness
     [mkRow "s1" "t1" 1 50 false, mkRow "s2" "t2" 2 50 false] "s1" "t2" true 10
     (by decide) (by decide) (by decide)).1⟩

/-- Counterexample to claim C2 as stated: at the boundary `expires_at = now` the
source's strict comparison `datetime.now() > expires_at` does not fire, so the
session is returned as `Valid` and its row is not deleted, although the claim's
`expiresAt <= now` condition holds. -/
theorem validate_session_expiry_boundary_counterexample :
    (mkRow "sb" "tb" 1 0 false).expires_at ≤ 0 ∧
    (validate_session [mkRow "sb" "tb" 1 0 false] "sb" "tb" false 0).2 =
      ValidateResult.valid 1 "login" "user@example.com" false 0 ∧
    (validate_session [mkRow "sb" "tb" 1 0 false] "sb" "tb" false 0).1 =
      [mkRow "sb" "tb" 1 0 false] := by
  decide

/-- Claim C2 (amended: `expires_at < now` in place of `expires_at <= now`): a
stored session whose `expires_at` is strictly in the past is never returned as
valid by `validate_session`; its row is deleted from the store by the call, and
the result is `Invalid("session_expired")`, carrying the stored email and
`remember_me = True` exactly when the session's `remember_me` flag is set. -/
theorem validate_session_expired_never_valid
    (store : List Session) (sid tok : String) (prolong : Bool) (now : Int) (row : Session)
    (hsid : sid ≠ "") (htok : tok ≠ "")
    (hfind : sqlSelectSession store sid tok = some row)
    (hexp : row.expires_at < now) :
    ((validate_session store sid tok prolong now).2.isValid = false) ∧
    ((validate_session store sid tok prolong now).2 =
      if row.remember_me then
        ValidateResult.invalid "session_expired" (some row.email) (some true)
      else ValidateResult.invalid "session_expired" none none) ∧
    row ∉ (validate_session store sid tok prolong now).1 ∧
    (∀ r ∈ store, r.session_id ≠ row.session_id →
      r ∈ (validate_session store sid tok prolong now).1) := by
  have hsidrow : row.session_id = sid := (sqlSelectSession_fields hfind).1
  have hstore : (validate_session store sid tok prolong now).1 =
      store.filter (fun r => !(r.session_id == sid)) := by
    cases hrm : row.remember_me <;>
      simp [validate_session, hsid, htok, hfind, hexp, hrm, sqlDeleteBySid]
  have hres : (validate_session store sid tok prolong now).2 =
      if row.remember_me then
        ValidateResult.invalid "session_expired" (some row.email) (some true)
      else ValidateResult.invalid "session_expired" none none := by
    cases hrm : row.remember_me <;>
      simp [validate_session, hsid, htok, hfind, hexp, hrm]
  refine ⟨?_, hres, ?_, ?_⟩
  · rw [hres]
    cases row.remember_me <;> simp [ValidateResult.isValid]
  · rw [hstore]
    intro hmem
    have := (List.mem_filter.mp hmem).2
    simp [hsidrow] at this
  · intro r hr hne
    rw [hstore]
    refine List.mem_filter.mpr ⟨hr, ?_⟩
    rw [hsidrow] at hne
    simpa using hne

/-- Witness for C2's amended theorem: an expired remember-me session is deleted
and the failure carries the stored email and the remember-me hint. -/
theorem validate_session_expired_never_valid_witness :
    (mkRow "s1" "t1" 1 5 true).expires_at < 10 ∧
    ((validate_session [mkRow "s1" "t1" 1 5 true] "s1" "t1" true 10).2.isValid = false) ∧
    ((validate_session [mkRow "s1" "t1" 1 5 true] "s1" "t1" true 10).2 =
      if (mkRow "s1" "t1" 1 5 true).remember_me then
        ValidateResult.invalid "session_expired" (some (mkRow "s1" "t1" 1 5 true).email)
          (some true)
      else ValidateResult.invalid "session_expired" none none) ∧
    (mkRow "s1" "t1" 1 5 true) ∉ (validate_session [mkRow "s1" "t1" 1 5 true]
        "s1" "t1" true 10).1 ∧
    (∀ r ∈ [mkRow "s1" "t1" 1 5 true],
      r.session_id ≠ (mkRow "s1" "t1" 1 5 true).session_id →
        r ∈ (validate_session [mkRow "s1" "t1" 1 5 true] "s1" "t1" true 10).1) :=
  ⟨by decide,
   validate_session_expired_never_valid [mkRow "s1" "t1" 1 5 true] "s1" "t1" true 10
     (mkRow "s1" "t1" 1 5 true) (by decide) (by decide) (by decide) (by decide)⟩

/-- Python's `split` never returns an empty list of groups. -/
theorem charSplit_ne_nil (sep : Char) (l : List Char) : charSplit sep l ≠ [] := by
  cases l with
  | nil => simp [charSplit]
  | cons a as =>
    simp only [charSplit]
    cases h : charSplit sep as with
    | nil => simp
    | cons g rest => by_cases ha : a = sep <;> simp [ha]

/-- The first group of Python's `split` is the text before the first separator. -/
theorem charSplit_head_take (sep : Char) (l : List Char) :
    (charSplit sep l).getD 0 [] = l.takeWhile (fun a => !(a == sep)) := by
  induction l with
  | nil => simp [charSplit]
  | cons a as ih =>
    cases h : charSplit sep as with
    | nil => exact absurd h (charSplit_ne_nil sep as)
    | cons g rest =>
      by_cases ha : a = sep
      · subst ha
        simp [charSplit, h, List.takeWhile_cons]
      · rw [h] at ih
        simp only [List.getD_cons_zero] at ih
        simp [charSplit, h, ha, List.takeWhile_cons, ih]

/-- The second group of Python's `split` is the text strictly between the first
and second separator (to the end when there is no second separator). -/
theorem charSplit_getD_one (sep : Char) (l : List Char) :
    (charSplit sep l).getD 1 [] =
      ((l.dropWhile (fun a => !(a == sep))).drop 1).takeWhile (fun a => !(a == sep)) := by
  induction l with
  | nil => simp [charSplit]
  | cons a as ih =>
    cases h : charSplit sep as with
    | nil => exact absurd h (charSplit_ne_nil sep as)
    | cons g rest =>
      by_cases ha : a = sep
      · subst ha
        have hhead := charSplit_head_take a as
        rw [h] at hhead
        simp only [List.getD_cons_zero] at hhead
        simp [charSplit, h, List.dropWhile_cons, hhead]
      · rw [h] at ih
        simp only [charSplit, h, ha, List.dropWhile_cons]
        simpa [ha] using ih

/-- Indexing with `getD` commutes with packing character lists into strings. -/
theorem getD_map_mk (l : List (List Char)) (i : Nat) :
    (l.map String.mk).getD i "" = String.mk (l.getD i []) := by
  induction l generalizing i with
  | nil => simp [List.getD_nil]
  | cons x xs ih =>
    cases i with
    | zero => simp
    | succ n =>
      simp only [List.map_cons, List.getD_cons_succ]
      exact ih n

/-- Python `split(":")[1]` extracts exactly the text between the first and second colon. -/
theorem pySplit_getD_one (s : String) :
    (pySplit s ':').getD 1 "" = betweenFirstColons s := by
  rw [pySplit, getD_map_mk, charSplit_getD_one, betweenFirstColons]

/-- Counterexample to claim C5 as stated: on `"selected:session:x"` the source
returns true (it reads only the text between the first and second colon, here
`"session"`), while the claim's predicate — the comma-separated category list
being everything after the `"selected:"` prefix — is false, since that list is
`["session:x"]`. -/
theorem can_set_session_cookies_counterexample :
    can_set_session_cookies "selected:session:x" = true ∧
    may_issue_session_cookie_claim "selected:session:x" = false := by
  decide

/-- Claim C5 (amended): `can_set_session_cookies` is a pure function of the
preference string returning true iff the string is exactly `"true"`, or starts
with `"selected:"` and the comma-separated list of the text between the first
and second colon (the whole remainder when there is no second colon) contains
`"session"`; every other input — including the absent/default `"false"` —
yields false. -/
theorem can_set_session_cookies_characterization (s : String) :
    can_set_session_cookies s = true ↔
      s = "true" ∨ (pyStartsWith s "selected:" = true ∧
        "session" ∈ pySplit (betweenFirstColons s) ',') := by
  by_cases h1 : s = "true"
  · simp [can_set_session_cookies, h1]
  · have h1b : (s == "true") = false := by simpa using h1
    by_cases h2 : pyStartsWith s "selected:" = true
    · simp only [can_set_session_cookies, h1b, Bool.false_eq_true, if_false, h2, if_true]
      rw [pySplit_getD_one]
      simp [List.contains, List.elem_iff, h1, h2]
    · have h2b : pyStartsWith s "selected:" = false := by simpa using h2
      simp [can_set_session_cookies, h1b, h2b, h1]

/-- Looking up in a touched store finds the touched image of the original row:
the activity-stamp update preserves both lookup fields. -/
theorem sqlSelectSession_sqlTouch (store : List Session) (sid tok : String) (now : Int) :
    sqlSelectSession (sqlTouch store sid now) sid tok =
      (sqlSelectSession store sid tok).map
        (fun r => if r.session_id == sid then { r with last_activity := now } else r) := by
  unfold sqlSelectSession sqlTouch
  rw [List.find?_map]
  congr 1
  congr 1
  funext r
  by_cases h : r.session_id == sid <;> simp [Function.comp, h]

/-- Touching the same session twice at the same instant is idempotent. -/
theorem sqlTouch_sqlTouch (store : List Session) (sid : String) (now : Int) :
    sqlTouch (sqlTouch store sid now) sid now = sqlTouch store sid now := by
  unfold sqlTouch
  rw [List.map_map]
  apply List.map_congr_left
  intro r _
  by_cases h : r.session_id == sid <;> simp [Function.comp, h]

/-- On a valid remember-me session the only store effect of `validate_session`
is the activity stamp. -/
theorem validate_store_touch_of_remember
    (store : List Session) (sid tok : String) (prolong : Bool) (now : Int) (row : Session)
    (hsid : sid ≠ "") (htok : tok ≠ "")
    (hfind : sqlSelectSession store sid tok = some row)
    (hval : ¬ now > row.expires_at) (hrm : row.remember_me = true) :
    (validate_session store sid tok prolong now).1 = sqlTouch store sid now := by
  simp [validate_session, hsid, htok, hfind, hval, hrm]

/-- Iterating `validate_session` on a valid remember-me session stabilizes after
one call: every further call only re-touches the same row. -/
theorem validate_iterate_remember
    (store : List Session) (sid tok : String) (now : Int) (row : Session)
    (hsid : sid ≠ "") (htok : tok ≠ "")
    (hfind : sqlSelectSession store sid tok = some row)
    (hval : ¬ now > row.expires_at) (hrm : row.remember_me = true) :
    ∀ n : Nat, (fun st => (validate_session st sid tok true now).1)^[n + 1] store =
      sqlTouch store sid now := by
  intro n
  induction n with
  | zero =>
    simp only [Nat.zero_add, Function.iterate_one]
    exact validate_store_touch_of_remember store sid tok true now row hsid htok hfind
      hval hrm
  | succ n ih =>
    rw [Function.iterate_succ_apply', ih]
    have hrowsid : row.session_id = sid := (sqlSelectSession_fields hfind).1
    have hfind2 : sqlSelectSession (sqlTouch store sid now) sid tok =
        some { row with last_activity := now } := by
      rw [sqlSelectSession_sqlTouch, hfind]
      simp [hrowsid]
    have hstep := validate_store_touch_of_remember (sqlTouch store sid now) sid tok true
      now { row with last_activity := now } hsid htok hfind2 (by simpa using hval)
      (by simpa using hrm)
    rw [hstep, sqlTouch_sqlTouch]

/-- Claim C4: on a session found valid by `validate_session(prolong = True)`, a
`remember_me = False` session gets `expires_at = now + 30 minutes`, while a
`remember_me = True` session keeps its `expires_at` unchanged across any number
of repeated `validate_session(prolong = True)` calls. -/
theorem validate_session_renewal_policy
    (store : List Session) (sid tok : String) (now : Int) (row : Session)
    (hsid : sid ≠ "") (htok : tok ≠ "")
    (hfind : sqlSelectSession store sid tok = some row)
    (hval : now ≤ row.expires_at)
    (hnodup : (store.map Session.session_id).Nodup) :
    (row.remember_me = false →
      (∃ r ∈ (validate_session store sid tok true now).1,
        r.session_id = row.session_id) ∧
      (∀ r ∈ (validate_session store sid tok true now).1,
        r.session_id = row.session_id → r.expires_at = now + minutes 30)) ∧
    (row.remember_me = true →
      ∀ n : Nat, ∀ r ∈ (fun st => (validate_session st sid tok true now).1)^[n] store,
        r.session_id = row.session_id → r.expires_at = row.expires_at) := by
  have hval' : ¬ now > row.expires_at := not_lt.mpr hval
  have hrowsid : row.session_id = sid := (sqlSelectSession_fields hfind).1
  have hrowmem : row ∈ store := sqlSelectSession_mem hfind
  constructor
  · intro hrm
    have hstore : (validate_session store sid tok true now).1 =
        sqlRenew (sqlTouch store sid now) sid (now + minutes 30) := by
      simp [validate_session, hsid, htok, hfind, hval', hrm]
    rw [hstore]
    unfold sqlRenew sqlTouch
    rw [List.map_map]
    constructor
    · refine ⟨_, List.mem_map_of_mem _ hrowmem, ?_⟩
      simp [Function.comp, hrowsid]
    · intro r hr hrsid
      obtain ⟨r1, hr1, rfl⟩ := List.mem_map.mp hr
      by_cases h1 : r1.session_id == sid
      · simp [Function.comp, h1]
      · rw [hrowsid] at hrsid
        simp [Function.comp, h1] at hrsid
        simp [hrsid] at h1
  · intro hrm n
    cases n with
    | zero =>
      intro r hr hrsid
      simp only [Function.iterate_zero, id] at hr
      have heq : r = row := List.inj_on_of_nodup_map hnodup hr hrowmem hrsid
      rw [heq]
    | succ n =>
      intro r hr hrsid
      rw [validate_iterate_remember store sid tok now row hsid htok hfind hval' hrm n]
        at hr
      unfold sqlTouch at hr
      obtain ⟨r1, hr1, rfl⟩ := List.mem_map.mp hr
      have hsidimg : (if r1.session_id == sid then { r1 with last_activity := now }
          else r1).session_id = r1.session_id := by
        by_cases h1 : r1.session_id == sid <;> simp [h1]
      rw [hsidimg] at hrsid
      have heq : r1 = row := List.inj_on_of_nodup_map hnodup hr1 hrowmem hrsid
      subst heq
      by_cases h1 : r1.session_id == sid <;> simp [h1]

/-- Witness for C4 on a non-remember-me session: renewal sets
`expires_at = now + 30 minutes`. -/
theorem validate_session_renewal_policy_witness :
    ((50 : Int) ≤ (mkRow "s1" "t1" 1 100 false).expires_at) ∧
    (((mkRow "s1" "t1" 1 100 false).remember_me = false →
      (∃ r ∈ (validate_session [mkRow "s1" "t1" 1 100 false] "s1" "t1" true 50).1,
        r.session_id = (mkRow "s1" "t1" 1 100 false).session_id) ∧
      (∀ r ∈ (validate_session [mkRow "s1" "t1" 1 100 false] "s1" "t1" true 50).1,
        r.session_id = (mkRow "s1" "t1" 1 100 false).session_id →
          r.expires_at = 50 + minutes 30)) ∧
    ((mkRow "s1" "t1" 1 100 false).remember_me = true →
      ∀ n : Nat, ∀ r ∈ (fun st => (validate_session st "s1" "t1" true 50).1)^[n]
          [mkRow "s1" "t1" 1 100 false],
        r.session_id = (mkRow "s1" "t1" 1 100 false).session_id →
          r.expires_at = (mkRow "s1" "t1" 1 100 false).expires_at)) :=
  ⟨by decide,
   validate_session_renewal_policy [mkRow "s1" "t1" 1 100 false] "s1" "t1" 50
     (mkRow "s1" "t1" 1 100 false) (by decide) (by decide) (by decide) (by decide)
     (by decide)⟩

/-- Claim C10: on a session found valid, `validate_session` rewrites only that
session's `last_activity` (always, to `now`) and its `expires_at` (to
`now + 30 minutes`, only when `prolong` is true and the session is not
remember-me); every other column of that row, and every row of a different
`session_id`, is unchanged, and with `prolong = false` every row keeps its
`expires_at`. -/
theorem validate_session_frame
    (store : List Session) (sid tok : String) (prolong : Bool) (now : Int) (row : Session)
    (hsid : sid ≠ "") (htok : tok ≠ "")
    (hfind : sqlSelectSession store sid tok = some row)
    (hval : now ≤ row.expires_at) :
    List.Forall₂ (fun r r' =>
      r'.session_id = r.session_id ∧ r'.user_id = r.user_id ∧
      r'.user_login = r.user_login ∧ r'.email = r.email ∧
      r'.access_token = r.access_token ∧ r'.created_at = r.created_at ∧
      r'.ip_address = r.ip_address ∧ r'.user_agent = r.user_agent ∧
      r'.remember_me = r.remember_me ∧
      (r.session_id ≠ sid → r' = r) ∧
      (r.session_id = sid → r'.last_activity = now ∧
        r'.expires_at = (if prolong = true ∧ row.remember_me = false
          then now + minutes 30 else r.expires_at)) ∧
      (prolong = false → r'.expires_at = r.expires_at))
      store (validate_session store sid tok prolong now).1 := by
  have hval' : ¬ now > row.expires_at := not_lt.mpr hval
  by_cases hp : prolong = true ∧ row.remember_me = false
  · have hstore : (validate_session store sid tok prolong now).1 =
        sqlRenew (sqlTouch store sid now) sid (now + minutes 30) := by
      simp [validate_session, hsid, htok, hfind, hval', hp]
    rw [hstore]
    unfold sqlRenew sqlTouch
    rw [List.map_map, List.forall₂_map_right_iff, List.forall₂_same]
    intro r _
    by_cases h1 : r.session_id == sid
    · have h1e : r.session_id = sid := by simpa using h1
      simp [Function.comp, h1, h1e, hp, hp.1]
    · have h1e : ¬ r.session_id = sid := by simpa using h1
      simp [Function.comp, h1, h1e, hp.1]
  · have hstore : (validate_session store sid tok prolong now).1 =
        sqlTouch store sid now := by
      simp [validate_session, hsid, htok, hfind, hval', hp]
    rw [hstore]
    unfold sqlTouch
    rw [List.forall₂_map_right_iff, List.forall₂_same]
    intro r _
    by_cases h1 : r.session_id == sid
    · have h1e : r.session_id = sid := by simpa using h1
      simp [h1, h1e, hp]
    · have h1e : ¬ r.session_id = sid := by simpa using h1
      simp [h1, h1e]

/-- Witness for C10: a valid two-row store where the first session is validated
with `prolong = true`. -/
theorem validate_session_frame_witness :
    ((50 : Int) ≤ (mkRow "s1" "t1" 1 100 false).expires_at) ∧
    List.Forall₂ (fun r r' =>
      r'.session_id = r.session_id ∧ r'.user_id = r.user_id ∧
      r'.user_login = r.user_login ∧ r'.email = r.email ∧
      r'.access_token = r.access_token ∧ r'.created_at = r.created_at ∧
      r'.ip_address = r.ip_address ∧ r'.user_agent = r.user_agent ∧
      r'.remember_me = r.remember_me ∧
      (r.session_id ≠ "s1" → r' = r) ∧
      (r.session_id = "s1" → r'.last_activity = 50 ∧
        r'.expires_at = (if true = true ∧ (mkRow "s1" "t1" 1 100 false).remember_me = false
          then 50 + minutes 30 else r.expires_at)) ∧
      (true = false → r'.expires_at = r.expires_at))
      [mkRow "s1" "t1" 1 100 false, mkRow "s2" "t2" 2 200 true]
      (validate_session [mkRow "s1" "t1" 1 100 false, mkRow "s2" "t2" 2 200 true]
        "s1" "t1" true 50).1 :=
  ⟨by decide,
   validate_session_frame [mkRow "s1" "t1" 1 100 false, mkRow "s2" "t2" 2 200 true]
     "s1" "t1" true 50 (mkRow "s1" "t1" 1 100 false) (by decide) (by decide) (by decide)
     (by decide)⟩
